import Mathlib

/-!
Shallow embedding of the AI-ML-Health-Checker diagnostic pipeline
(`backend/models/schemas.py`, `backend/utils/emergency_detection.py`,
`backend/agents/condition_matcher.py`, `backend/agents/treatment_retriever.py`,
`backend/agents/coordinator.py`, `backend/utils/uncertainty_quantification.py`).

Numeric scores are modelled over `ℚ`. Python's stable `list.sort` is modelled
by `List.insertionSort` (stable for the sorting relations used here).
Python's substring test `needle in hay` is modelled by `pyContains` over
character lists; `str.lower()` by `Char.toLower` mapping (all catalogue text
is ASCII).
-/

namespace HealthChecker

/-- Python prefix test on character lists: `charsStartWith n h` holds when `n`
is an initial segment of `h`. -/
def charsStartWith : List Char → List Char → Bool
  | [], _ => true
  | _ :: _, [] => false
  | a :: as, b :: bs => a == b && charsStartWith as bs

/-- Python substring test `needle in hay` on character lists. -/
def charsContain (hay needle : List Char) : Bool :=
  match hay with
  | [] => needle.isEmpty
  | _ :: t => charsStartWith needle hay || charsContain t needle

/-- Python `s.lower()` as a character list (catalogue text is ASCII). -/
def pyLower (s : String) : List Char := s.toList.map Char.toLower

/-- Python `s.lower()` returned as a `String`. -/
def pyLowerStr (s : String) : String := String.mk (pyLower s)

/-- Python `needle in hay` on `String`s (no implicit lowering; callers lower
exactly where the source does). -/
def pyContains (hay needle : String) : Bool := charsContain hay.toList needle.toList

/-- Python `s.replace(a, b)` for single-character patterns (the source only
replaces one character by one character: `"_"→" "` and `" "→"_"`). -/
def pyReplaceChar (a b : Char) (s : String) : String :=
  String.mk (s.toList.map (fun c => if c = a then b else c))

/-- Python `s.title()`: the first letter of every run of letters is upcased,
the rest downcased. -/
def pyTitle (s : String) : String :=
  String.mk ((s.toList.foldl
    (fun (acc : List Char × Bool) c =>
      if c.isAlpha then
        (acc.1 ++ [if acc.2 then c.toLower else c.toUpper], true)
      else
        (acc.1 ++ [c], false))
    ([], false)).1)

/-! ## `models/schemas.py` -/

/-- Severity levels for symptoms (`schemas.Severity`, a `str` enum). -/
inductive Severity
  | mild
  | moderate
  | severe
  | critical
deriving DecidableEq, Repr

/-- String value of a `Severity` member (the `str`-enum payload, which is what
Python f-string interpolation of a member produces). -/
def Severity.value : Severity → String
  | .mild => "mild"
  | .moderate => "moderate"
  | .severe => "severe"
  | .critical => "critical"

/-- Urgency levels for medical conditions (`schemas.UrgencyLevel`, a `str`
enum with exactly the four members below — there is no `CRITICAL` member). -/
inductive UrgencyLevel
  | emergency
  | urgent
  | moderate
  | low
deriving DecidableEq, Repr

/-- String value of an `UrgencyLevel` member. -/
def UrgencyLevel.value : UrgencyLevel → String
  | .emergency => "emergency"
  | .urgent => "urgent"
  | .moderate => "moderate"
  | .low => "low"

/-- Python attribute name of an `UrgencyLevel` member. -/
def UrgencyLevel.memberName : UrgencyLevel → String
  | .emergency => "EMERGENCY"
  | .urgent => "URGENT"
  | .moderate => "MODERATE"
  | .low => "LOW"

/-- The member list of the enum, in declaration order. -/
def UrgencyLevel.members : List UrgencyLevel :=
  [.emergency, .urgent, .moderate, .low]

/-- Python `UrgencyLevel(v)`: value-based lookup; `none` models the
`ValueError` raised for a value that is no member's payload. -/
def UrgencyLevel.ofValue (v : String) : Option UrgencyLevel :=
  UrgencyLevel.members.find? (fun u => u.value = v)

/-- Python attribute access `UrgencyLevel.<name>`: name-based lookup; `none`
models the `AttributeError` raised for a missing member. -/
def UrgencyLevel.byName (n : String) : Option UrgencyLevel :=
  UrgencyLevel.members.find? (fun u => u.memberName = n)

/-- Numeric rank of an urgency tier, `LOW < MODERATE < URGENT < EMERGENCY`
(spec §3 ordering; used only to state maximum/ordering claims). -/
def UrgencyLevel.rank : UrgencyLevel → ℕ
  | .low => 0
  | .moderate => 1
  | .urgent => 2
  | .emergency => 3

/-- Maximum of two urgency tiers under the spec ordering. -/
def UrgencyLevel.maxTier (a b : UrgencyLevel) : UrgencyLevel :=
  if a.rank ≥ b.rank then a else b

/-- Individual symptom (`schemas.Symptom`). -/
structure Symptom where
  name : String
  severity : Severity
  duration : Option String := none
  description : Option String := none
  location : Option String := none
deriving DecidableEq, Repr

/-- Patient demographic and basic info (`schemas.PatientInfo`; `age` is
validated to `0 ≤ age ≤ 150`, hence `ℕ` here). -/
structure PatientInfo where
  age : ℕ
  gender : String
  medical_history : List String := []
  medications : List String := []
  allergies : List String := []
deriving DecidableEq, Repr

/-- Input model for symptom analysis (`schemas.SymptomInput`). -/
structure SymptomInput where
  symptoms : List Symptom
  patient_info : PatientInfo
  chief_complaint : String
  additional_notes : Option String := none
deriving DecidableEq, Repr

/-- The `symptoms_not_empty` pydantic validator of `SymptomInput`: an empty
symptom list raises a validation error before any pipeline stage can run. -/
def symptoms_not_empty (v : List Symptom) : Except String (List Symptom) :=
  if v.isEmpty then .error "At least one symptom must be provided" else .ok v

/-- Validated construction of a `SymptomInput` (pydantic model construction:
the validator runs before the pipeline ever sees the input). -/
def mkSymptomInput (symptoms : List Symptom) (patient_info : PatientInfo)
    (chief_complaint : String) (additional_notes : Option String) :
    Except String SymptomInput := do
  let v ← symptoms_not_empty symptoms
  .ok { symptoms := v, patient_info, chief_complaint, additional_notes }

/-! ## `utils/emergency_detection.py` -/

/-- Safety-alert action tiers (`emergency_detection.SafetyAlert`). -/
inductive SafetyAlert
  | emergency_911
  | urgent_care
  | doctor_consult
  | monitor_symptoms
deriving DecidableEq, Repr

/-- One emergency symptom pattern
(`EmergencyDetectionSystem._load_emergency_patterns` record). -/
structure EmergencyPattern where
  patternName : String
  keywords : List String
  associated : List String
  severity_triggers : List String
  action : SafetyAlert
  message : String
  confidence_threshold : ℚ
deriving DecidableEq, Repr

/-- The emergency pattern table, keyed by pattern id, in source insertion
order (`_load_emergency_patterns`). -/
def emergency_patterns : List (String × EmergencyPattern) :=
  [ ("acute_mi",
     { patternName := "Acute Myocardial Infarction"
       keywords := ["chest pain", "crushing pain", "chest pressure", "left arm pain", "jaw pain"]
       associated := ["sweating", "nausea", "shortness of breath", "dizziness"]
       severity_triggers := ["severe", "crushing", "intense", "10/10", "worst ever"]
       action := .emergency_911
       message := "CALL 911 IMMEDIATELY - Possible heart attack"
       confidence_threshold := 0.4 }),
    ("stroke",
     { patternName := "Stroke/TIA"
       keywords := ["face drooping", "arm weakness", "speech difficulty", "sudden headache", "sudden confusion"]
       associated := ["dizziness", "vision loss", "confusion", "numbness"]
       severity_triggers := ["sudden", "severe", "worst ever", "drooping"]
       action := .emergency_911
       message := "CALL 911 IMMEDIATELY - Possible stroke"
       confidence_threshold := 0.3 }),
    ("severe_allergic_reaction",
     { patternName := "Anaphylaxis"
       keywords := ["difficulty breathing", "swelling throat", "hives", "rapid pulse", "severe rash"]
       associated := ["dizziness", "nausea", "vomiting", "face swelling"]
       severity_triggers := ["severe", "rapid", "difficulty", "swelling"]
       action := .emergency_911
       message := "CALL 911 IMMEDIATELY - Severe allergic reaction"
       confidence_threshold := 0.4 }),
    ("severe_breathing",
     { patternName := "Severe Respiratory Distress"
       keywords := ["can't breathe", "gasping", "blue lips", "choking", "chest tightness"]
       associated := ["wheezing", "chest pain", "panic", "coughing blood"]
       severity_triggers := ["severe", "can't", "unable", "gasping", "blue"]
       action := .emergency_911
       message := "CALL 911 IMMEDIATELY - Severe breathing difficulty"
       confidence_threshold := 0.3 }),
    ("severe_abdominal",
     { patternName := "Acute Abdomen"
       keywords := ["severe abdominal pain", "stabbing pain", "rigid abdomen"]
       associated := ["vomiting", "fever", "unable to move"]
       severity_triggers := ["severe", "stabbing", "worst ever", "rigid"]
       action := .urgent_care
       message := "SEEK IMMEDIATE MEDICAL CARE - Severe abdominal condition"
       confidence_threshold := 0.5 }),
    ("head_trauma",
     { patternName := "Head Injury"
       keywords := ["head injury", "loss of consciousness", "severe headache", "confusion"]
       associated := ["vomiting", "dizziness", "memory loss", "vision changes"]
       severity_triggers := ["severe", "worst ever", "sudden", "loss of"]
       action := .emergency_911
       message := "CALL 911 IMMEDIATELY - Head injury"
       confidence_threshold := 0.5 }),
    ("respiratory_infection",
     { patternName := "Respiratory Infection"
       keywords := ["persistent cough", "fever", "productive cough", "pneumonia"]
       associated := ["fatigue", "body aches", "headache", "sputum"]
       severity_triggers := ["persistent", "worsening", "high fever"]
       action := .doctor_consult
       message := "CONTACT YOUR DOCTOR - Possible respiratory infection"
       confidence_threshold := 0.4 }),
    ("urinary_tract_infection",
     { patternName := "Urinary Tract Infection"
       keywords := ["dysuria", "burning urination", "frequent urination", "urinary urgency"]
       associated := ["fever", "pelvic pain", "blood in urine"]
       severity_triggers := ["burning", "painful", "frequent"]
       action := .doctor_consult
       message := "CONTACT YOUR DOCTOR - Possible urinary tract infection"
       confidence_threshold := 0.4 }) ]

/-- Rendering of an optional description in a Python f-string
(`f"{symptom.description}"` prints `None` for a missing value). -/
def descrText (d : Option String) : String := d.getD "None"

/-- The combined haystack text of `_calculate_pattern_match`: the (caller
lowered) chief complaint followed by each symptom's
`f"{name} {description} {severity} ".lower()`. -/
def allSymptomText (symptoms : List Symptom) (chief_complaint : String) : List Char :=
  symptoms.foldl
    (fun acc s =>
      acc ++ pyLower (s.name ++ " " ++ descrText s.description ++ " " ++ s.severity.value ++ " "))
    (chief_complaint.toList ++ [' '])

/-- Number of pattern keywords present in the haystack. -/
def keywordMatches (text : List Char) (p : EmergencyPattern) : ℕ :=
  p.keywords.countP (fun k => charsContain text (pyLower k))

/-- Number of severity-trigger words present in the haystack. -/
def severityTriggerMatches (text : List Char) (p : EmergencyPattern) : ℕ :=
  p.severity_triggers.countP (fun k => charsContain text (pyLower k))

/-- Number of associated symptoms present in the haystack. -/
def associatedMatches (text : List Char) (p : EmergencyPattern) : ℕ :=
  p.associated.countP (fun k => charsContain text (pyLower k))

/-- The `keyword_score` of `_calculate_pattern_match` (the keyword match
fraction; 0 for an empty keyword list). -/
def keywordScore (text : List Char) (p : EmergencyPattern) : ℚ :=
  if p.keywords.isEmpty then 0
  else (keywordMatches text p : ℚ) / (p.keywords.length : ℚ)

/-- Pattern-match score (`EmergencyDetectionSystem._calculate_pattern_match`):
no keyword match means score 0; emergency-911 patterns are gated at keyword
score ≥ 0.6 and doctor-consult patterns at ≥ 0.4; otherwise the score is
keyword score + 0.2·severity-trigger matches + 0.2·associated fraction,
capped at 1. -/
def calculate_pattern_match (symptoms : List Symptom) (chief_complaint : String)
    (p : EmergencyPattern) : ℚ :=
  let text := allSymptomText symptoms chief_complaint
  if keywordMatches text p = 0 then 0
  else
    let severity_bonus : ℚ := 0.2 * (severityTriggerMatches text p : ℚ)
    let keyword_score := keywordScore text p
    -- the source divides by `len(pattern.get("associated", [1]))`; every
    -- catalogued pattern carries a non-empty `associated` list, and the
    -- default-to-1 here keeps the quotient total for the empty case
    let assocLen : ℕ := if p.associated.isEmpty then 1 else p.associated.length
    let associated_score : ℚ := (associatedMatches text p : ℚ) / (assocLen : ℚ) * 0.2
    if p.action = .emergency_911 ∧ keyword_score < 0.6 then 0
    else if p.action = .doctor_consult ∧ keyword_score < 0.4 then 0
    else min (keyword_score + severity_bonus + associated_score) 1

/-- Severe-symptom keywords of `_check_severity_escalation`. -/
def severe_keywords : List String :=
  ["severe", "unbearable", "worst ever", "10/10", "crushing", "sharp"]

/-- Moderate-escalation keywords of `_check_severity_escalation`. -/
def moderate_escalation_keywords : List String :=
  ["persistent", "worsening", "fever", "productive", "burning"]

/-- Per-symptom text `f"{name} {description}".lower()` used by the severity
escalation check. -/
def symptomText (s : Symptom) : List Char :=
  pyLower (s.name ++ " " ++ descrText s.description)

/-- Severity escalation check (`_check_severity_escalation`): any severe or
critical symptom (by severity or keyword) escalates; otherwise at least 2.0
accumulated moderate signals (1 per moderate severity, 0.5 per
moderate-escalation keyword occurrence) escalate. -/
def check_severity_escalation (symptoms : List Symptom) : Bool :=
  if symptoms.any (fun s =>
      (s.severity = .severe || s.severity = .critical) ||
      severe_keywords.any (fun k => charsContain (symptomText s) (pyLower k))) then
    true
  else
    let count : ℚ := symptoms.foldl
      (fun acc s =>
        (if s.severity = .moderate then acc + 1 else acc) +
          0.5 * (moderate_escalation_keywords.countP
                  (fun k => charsContain (symptomText s) (pyLower k)) : ℚ))
      0
    decide (count ≥ 2)

/-- One entry of the `detected_emergencies` list of `detect_emergency`. -/
structure DetectedEmergency where
  pattern : String
  score : ℚ
  action : SafetyAlert
  message : String
deriving DecidableEq, Repr

/-- One entry of the `safety_alerts` list of `detect_emergency`. -/
structure SafetyAlertEntry where
  type : SafetyAlert
  message : String
  priority : String
deriving DecidableEq, Repr

/-- Urgency update performed for a fired pattern inside `detect_emergency`'s
pattern loop. -/
def updateUrgency (u : UrgencyLevel) (action : SafetyAlert) : UrgencyLevel :=
  if action = .emergency_911 then .emergency
  else if action = .urgent_care ∧ u ≠ .emergency then .urgent
  else if u = .low then .moderate
  else u

/-- Accumulator of `detect_emergency`'s pattern loop. -/
structure ScanState where
  emergency_score : ℚ
  detected : List DetectedEmergency
  urgency : UrgencyLevel
deriving Repr

/-- The pattern loop of `detect_emergency`: every pattern whose match score
reaches its confidence threshold is recorded and escalates the urgency. -/
def patternScan (symptoms : List Symptom) (chief : String) :
    List (String × EmergencyPattern) → ScanState → ScanState
  | [], acc => acc
  | (_, p) :: rest, acc =>
      let score := calculate_pattern_match symptoms chief p
      let acc' :=
        if score ≥ p.confidence_threshold then
          { emergency_score := max acc.emergency_score score
            detected := acc.detected ++ [⟨p.patternName, score, p.action, p.message⟩]
            urgency := updateUrgency acc.urgency p.action }
        else acc
      patternScan symptoms chief rest acc'

/-- The single safety alert emitted for a final stage urgency
(the `if/elif/else` chain of `detect_emergency` appends exactly one). -/
def safetyAlertsFor (u : UrgencyLevel) : List SafetyAlertEntry :=
  match u with
  | .emergency => [⟨.emergency_911, "CALL 911 IMMEDIATELY - Critical emergency detected", "IMMEDIATE"⟩]
  | .urgent => [⟨.urgent_care, "SEEK IMMEDIATE MEDICAL CARE - Urgent condition detected", "URGENT"⟩]
  | .moderate => [⟨.doctor_consult, "CONTACT YOUR DOCTOR - Medical evaluation recommended", "SAME_DAY"⟩]
  | .low => [⟨.monitor_symptoms, "MONITOR SYMPTOMS - Watch for changes", "ROUTINE"⟩]

/-- Result record of `detect_emergency`. -/
structure EmergencyResult where
  urgency_level : UrgencyLevel
  emergency_score : ℚ
  detected_emergencies : List DetectedEmergency
  safety_alerts : List SafetyAlertEntry
  requires_immediate_care : Bool
deriving Repr

/-- Emergency detection (`EmergencyDetectionSystem.detect_emergency`):
patterns are scanned in table order starting from LOW urgency, the severity
escalation check can raise LOW to MODERATE and adds 0.2 to the score, and one
safety alert matching the final urgency is emitted. -/
def detect_emergency (inp : SymptomInput) : EmergencyResult :=
  let chief := pyLowerStr inp.chief_complaint
  let st := patternScan inp.symptoms chief emergency_patterns ⟨0, [], .low⟩
  let st :=
    if check_severity_escalation inp.symptoms then
      { st with
        urgency := if st.urgency = .low then .moderate else st.urgency
        emergency_score := st.emergency_score + 0.2 }
    else st
  { urgency_level := st.urgency
    emergency_score := st.emergency_score
    detected_emergencies := st.detected
    safety_alerts := safetyAlertsFor st.urgency
    requires_immediate_care := st.urgency = .emergency ∨ st.urgency = .urgent }

/-! ## `agents/condition_matcher.py`

The knowledge-base record keeps the fields the modelled functions read
(`symptoms`, `icd_code`, `description`, `common_age_groups`, `risk_factors`);
the fields never read by any modelled function (`symptom_weights`,
`severity`, `seasonal_pattern`, `red_flags`, `differential_conditions`) are
omitted. The `pneumonia` key appears twice in the source dict literal; the
second assignment silently overwrites the first, so the table below carries
one `pneumonia` entry (the fields used here are identical in both). -/

structure CondData where
  symptoms : List String
  icd_code : String
  description : String
  common_age_groups : List String
  risk_factors : List String
deriving DecidableEq, Repr

/-- The condition knowledge base (`_load_medical_knowledge_base`), in dict
insertion order. -/
def medical_knowledge_base : List (String × CondData) :=
  [ ("influenza",
     { symptoms := ["fever", "fatigue", "body aches", "headache", "cough", "sore throat"]
       icd_code := "J11.1"
       description := "Acute respiratory illness caused by influenza viruses"
       common_age_groups := ["all"]
       risk_factors := ["immunocompromised", "elderly", "chronic conditions"] }),
    ("common_cold",
     { symptoms := ["runny nose", "congestion", "sore throat", "cough", "sneezing"]
       icd_code := "J00"
       description := "Viral upper respiratory tract infection"
       common_age_groups := ["all"]
       risk_factors := ["close contact with infected individuals"] }),
    ("pneumonia",
     { symptoms := ["fever", "cough", "shortness of breath", "chest pain", "fatigue", "chills"]
       icd_code := "J18.9"
       description := "Infection that inflames air sacs in lungs"
       common_age_groups := ["elderly", "children"]
       risk_factors := ["age", "chronic diseases", "smoking"] }),
    ("bronchitis",
     { symptoms := ["persistent cough", "mucus production", "fatigue", "mild fever", "chest discomfort"]
       icd_code := "J40"
       description := "Inflammation of the bronchial tubes"
       common_age_groups := ["adults"]
       risk_factors := ["smoking", "air pollution", "viral infections"] }),
    ("asthma",
     { symptoms := ["wheezing", "shortness of breath", "chest tightness", "cough"]
       icd_code := "J45.9"
       description := "Chronic respiratory condition with airway inflammation"
       common_age_groups := ["children", "adults"]
       risk_factors := ["allergies", "family history", "environmental triggers"] }),
    ("gastroenteritis",
     { symptoms := ["nausea", "vomiting", "diarrhea", "abdominal pain", "fever", "dehydration"]
       icd_code := "K59.1"
       description := "Inflammation of the stomach and intestines"
       common_age_groups := ["all"]
       risk_factors := ["contaminated food", "poor hygiene"] }),
    ("appendicitis",
     { symptoms := ["abdominal pain", "nausea", "vomiting", "fever", "loss of appetite", "constipation"]
       icd_code := "K37"
       description := "Inflammation of the appendix"
       common_age_groups := ["children", "young adults"]
       risk_factors := ["age", "family history"] }),
    ("ibs",
     { symptoms := ["abdominal pain", "bloating", "gas", "diarrhea", "constipation", "cramping"]
       icd_code := "K58.9"
       description := "Functional gastrointestinal disorder"
       common_age_groups := ["adults"]
       risk_factors := ["stress", "diet", "hormonal changes"] }),
    ("gerd",
     { symptoms := ["heartburn", "acid reflux", "chest pain", "difficulty swallowing", "regurgitation"]
       icd_code := "K21.9"
       description := "Gastroesophageal reflux disease"
       common_age_groups := ["adults"]
       risk_factors := ["obesity", "hiatal hernia", "pregnancy"] }),
    ("hypertension",
     { symptoms := ["headache", "dizziness", "chest pain", "shortness of breath", "nosebleeds"]
       icd_code := "I10"
       description := "High blood pressure condition"
       common_age_groups := ["adults", "elderly"]
       risk_factors := ["age", "obesity", "sedentary lifestyle", "high sodium diet"] }),
    ("heart_failure",
     { symptoms := ["shortness of breath", "fatigue", "swelling", "rapid heartbeat", "persistent cough"]
       icd_code := "I50.9"
       description := "Heart's inability to pump blood effectively"
       common_age_groups := ["elderly"]
       risk_factors := ["coronary_artery_disease", "hypertension", "diabetes"] }),
    ("atrial_fibrillation",
     { symptoms := ["irregular heartbeat", "palpitations", "fatigue", "dizziness", "chest pain"]
       icd_code := "I48.9"
       description := "Irregular and often rapid heart rhythm"
       common_age_groups := ["elderly"]
       risk_factors := ["age", "heart_disease", "hypertension"] }),
    ("migraine",
     { symptoms := ["headache", "nausea", "light sensitivity", "sound sensitivity", "visual disturbances"]
       icd_code := "G43.9"
       description := "Recurrent severe headache disorder"
       common_age_groups := ["adults"]
       risk_factors := ["family history", "stress", "hormonal changes"] }),
    ("tension_headache",
     { symptoms := ["headache", "muscle tension", "stress", "fatigue"]
       icd_code := "G44.2"
       description := "Most common type of headache"
       common_age_groups := ["adults"]
       risk_factors := ["stress", "poor posture", "dehydration"] }),
    ("stroke",
     { symptoms := ["sudden weakness", "face drooping", "speech difficulty", "confusion", "severe headache"]
       icd_code := "I64"
       description := "Disruption of blood supply to brain"
       common_age_groups := ["elderly"]
       risk_factors := ["age", "hypertension", "diabetes", "smoking"] }),
    ("diabetes_type_2",
     { symptoms := ["excessive thirst", "frequent urination", "fatigue", "blurred vision", "slow healing wounds"]
       icd_code := "E11.9"
       description := "Metabolic disorder characterized by high blood sugar"
       common_age_groups := ["adults", "elderly"]
       risk_factors := ["obesity", "sedentary lifestyle", "family history"] }),
    ("hyperthyroidism",
     { symptoms := ["rapid heartbeat", "weight loss", "nervousness", "sweating", "tremor"]
       icd_code := "E05.9"
       description := "Overactive thyroid gland"
       common_age_groups := ["adults"]
       risk_factors := ["family history", "stress", "iodine excess"] }),
    ("hypothyroidism",
     { symptoms := ["fatigue", "weight gain", "cold intolerance", "dry skin", "depression"]
       icd_code := "E03.9"
       description := "Underactive thyroid gland"
       common_age_groups := ["adults", "elderly"]
       risk_factors := ["autoimmune disease", "radiation", "medications"] }),
    ("anxiety_disorder",
     { symptoms := ["nervousness", "restlessness", "fatigue", "difficulty concentrating", "muscle tension", "sleep disturbances"]
       icd_code := "F41.9"
       description := "Mental health condition characterized by excessive worry"
       common_age_groups := ["adults"]
       risk_factors := ["stress", "family history", "trauma"] }),
    ("depression",
     { symptoms := ["persistent sadness", "loss of interest", "fatigue", "sleep disturbances", "appetite changes"]
       icd_code := "F32.9"
       description := "Persistent mood disorder affecting daily functioning"
       common_age_groups := ["adults"]
       risk_factors := ["family history", "trauma", "chronic illness"] }),
    ("arthritis",
     { symptoms := ["joint pain", "stiffness", "swelling", "reduced range of motion"]
       icd_code := "M19.9"
       description := "Inflammation of joints"
       common_age_groups := ["elderly"]
       risk_factors := ["age", "obesity", "previous injury"] }),
    ("fibromyalgia",
     { symptoms := ["widespread pain", "fatigue", "sleep disturbances", "cognitive difficulties"]
       icd_code := "M79.3"
       description := "Chronic pain disorder affecting muscles and soft tissues"
       common_age_groups := ["adults"]
       risk_factors := ["stress", "trauma", "family history"] }),
    ("urinary_tract_infection",
     { symptoms := ["painful urination", "frequent urination", "urgency", "cloudy urine", "pelvic pain"]
       icd_code := "N39.0"
       description := "Infection in any part of the urinary system"
       common_age_groups := ["adults"]
       risk_factors := ["female gender", "sexual activity", "certain contraceptives"] }),
    ("sepsis",
     { symptoms := ["fever", "rapid heart rate", "rapid breathing", "confusion", "low blood pressure"]
       icd_code := "A41.9"
       description := "Life-threatening response to infection"
       common_age_groups := ["elderly", "immunocompromised"]
       risk_factors := ["chronic illness", "immunosuppression", "recent surgery"] }),
    ("eczema",
     { symptoms := ["itchy skin", "red rash", "dry skin", "skin inflammation"]
       icd_code := "L30.9"
       description := "Chronic skin condition causing inflammation"
       common_age_groups := ["children", "adults"]
       risk_factors := ["allergies", "family history", "environmental factors"] }),
    ("psoriasis",
     { symptoms := ["red patches", "scaly skin", "itching", "burning sensation"]
       icd_code := "L40.9"
       description := "Autoimmune skin condition"
       common_age_groups := ["adults"]
       risk_factors := ["family history", "stress", "infections"] }),
    ("pms",
     { symptoms := ["mood changes", "breast tenderness", "bloating", "fatigue", "irritability"]
       icd_code := "N94.3"
       description := "Premenstrual syndrome"
       common_age_groups := ["reproductive_age_women"]
       risk_factors := ["hormonal changes", "stress", "diet"] }),
    ("menopause",
     { symptoms := ["hot flashes", "night sweats", "mood changes", "irregular periods", "sleep disturbances"]
       icd_code := "N95.1"
       description := "Natural end of reproductive years"
       common_age_groups := ["middle_aged_women"]
       risk_factors := ["age", "family history", "lifestyle factors"] }),
    ("allergic_rhinitis",
     { symptoms := ["sneezing", "runny nose", "itchy eyes", "congestion"]
       icd_code := "J30.9"
       description := "Allergic reaction affecting nose and eyes"
       common_age_groups := ["all"]
       risk_factors := ["allergies", "family history", "environmental exposure"] }),
    ("food_allergy",
     { symptoms := ["hives", "swelling", "nausea", "vomiting", "difficulty breathing"]
       icd_code := "T78.1"
       description := "Immune system reaction to food"
       common_age_groups := ["children", "adults"]
       risk_factors := ["family history", "other allergies", "age"] }) ]

/-- The symptom comparison of `_rule_based_matching`: a patient symptom
matches a catalogued condition symptom when either one is a (lowercased)
substring of the other. -/
def symMatch (symptom condition_symptom : String) : Bool :=
  charsContain (pyLower condition_symptom) (pyLower symptom) ||
  charsContain (pyLower symptom) (pyLower condition_symptom)

/-- The `exact_matches` loop of `_rule_based_matching`: for each patient
symptom the first matching catalogued symptom is appended (inner loop with
`break`, i.e. `find?`). -/
def exactMatches (symptoms condition_symptoms : List String) : List String :=
  symptoms.filterMap (fun s => condition_symptoms.find? (fun cs => symMatch s cs))

/-- One entry of the rule-based match list. -/
structure RuleMatch where
  condition : String
  match_percentage : ℚ
  exact_matches : List String
  total_condition_symptoms : ℕ
deriving DecidableEq, Repr

/-- Per-condition body of the `_rule_based_matching` loop: the match
percentage is matched-symptom count over catalogued-symptom count (0 for an
empty catalogue), and a zero-score condition produces no entry. -/
def ruleMatchOf (symptoms : List String) (e : String × CondData) : Option RuleMatch :=
  let condition_symptoms := e.2.symptoms
  let em := exactMatches symptoms condition_symptoms
  let match_percentage : ℚ :=
    if condition_symptoms.isEmpty then 0
    else (em.length : ℚ) / (condition_symptoms.length : ℚ)
  if match_percentage > 0 then
    some ⟨e.1, match_percentage, em, condition_symptoms.length⟩
  else none

/-- Rule-based matching (`_rule_based_matching`): the per-condition entries
with positive score, sorted descending by match percentage (stable). -/
def rule_based_matching (kb : List (String × CondData)) (symptoms : List String) :
    List RuleMatch :=
  (kb.filterMap (ruleMatchOf symptoms)).insertionSort
    (fun a b => a.match_percentage ≥ b.match_percentage)

/-- One similarity match (`_similarity_based_matching` output entry). The
similarity score is a cosine similarity produced by the optional embedding
capability; with the capability absent the list is empty. -/
structure SimilarityMatch where
  condition : String
  similarity_score : ℚ
deriving DecidableEq, Repr

/-- One entry of the combined score table of `_combine_and_rank_matches`. -/
structure CombinedScore where
  condition : String
  combined_score : ℚ
  similarity_score : ℚ
  rule_score : ℚ
  exact_matches : List String
deriving DecidableEq, Repr

/-- Dict upsert of a rule match into the combined-score table (keys are
unique in the table, so updating the first occurrence models the dict). -/
def upsertRule : List CombinedScore → RuleMatch → List CombinedScore
  | [], r => [⟨r.condition, 0, 0, r.match_percentage, r.exact_matches⟩]
  | e :: t, r =>
      if e.condition = r.condition then
        { e with rule_score := r.match_percentage, exact_matches := r.exact_matches } :: t
      else e :: upsertRule t r

/-- Combine and rank (`_combine_and_rank_matches`): similarity entries are
inserted first, rule entries upserted, every entry's combined score is
similarity·0.6 + rule·0.4, and the list is sorted descending by combined
score (stable). -/
def combine_and_rank_matches (similarity_matches : List SimilarityMatch)
    (rule_based_matches : List RuleMatch) : List CombinedScore :=
  let base := similarity_matches.map
    (fun m => ({ condition := m.condition, combined_score := 0,
                 similarity_score := m.similarity_score, rule_score := 0,
                 exact_matches := [] } : CombinedScore))
  let table := rule_based_matches.foldl upsertRule base
  let scored := table.map
    (fun e => { e with combined_score := e.similarity_score * 0.6 + e.rule_score * 0.4 })
  scored.insertionSort (fun a b => a.combined_score ≥ b.combined_score)

/-- One entry of the demographically adjusted match list. -/
structure AdjustedMatch where
  condition : String
  combined_score : ℚ
  similarity_score : ℚ
  rule_score : ℚ
  exact_matches : List String
  adjusted_score : ℚ
  demographic_adjustment : ℚ
deriving DecidableEq, Repr

/-- The age/risk-factor/gender multiplier chain of
`_apply_demographic_adjustments` for one match. -/
def adjustScore (kb : List (String × CondData)) (patient_info : PatientInfo)
    (m : CombinedScore) : ℚ :=
  let condition_data := (kb.find? (fun e => e.1 = m.condition)).map Prod.snd
  let age_groups := (condition_data.map CondData.common_age_groups).getD ["all"]
  let risk_factors := (condition_data.map CondData.risk_factors).getD []
  let s0 := m.combined_score
  let s1 :=
    if "all" ∈ age_groups then s0
    else if patient_info.age < 18 ∧ "children" ∈ age_groups then s0 * 1.2
    else if 18 ≤ patient_info.age ∧ patient_info.age < 65 ∧ "adults" ∈ age_groups then s0 * 1.1
    else if 65 ≤ patient_info.age ∧ "elderly" ∈ age_groups then s0 * 1.2
    else s0 * 0.8
  let risk_factor_matches :=
    (risk_factors.filter
      (fun rf => patient_info.medical_history.any
        (fun mh => charsContain (pyLower mh) (pyLower rf)))).length
  let s2 := if risk_factor_matches > 0 then s1 * (1 + 0.1 * (risk_factor_matches : ℚ)) else s1
  if m.condition = "urinary_tract_infection" ∧ pyLowerStr patient_info.gender = "female" then
    s2 * 1.3
  else s2

/-- Demographic adjustment (`_apply_demographic_adjustments`): each combined
score is multiplied by the age/risk/gender factors, capped at 1.0, and the
list is re-sorted descending by adjusted score (stable). -/
def apply_demographic_adjustments (kb : List (String × CondData))
    (ms : List CombinedScore) (patient_info : PatientInfo) : List AdjustedMatch :=
  let adjusted := ms.map (fun m =>
    let a := adjustScore kb patient_info m
    ({ condition := m.condition, combined_score := m.combined_score,
       similarity_score := m.similarity_score, rule_score := m.rule_score,
       exact_matches := m.exact_matches,
       adjusted_score := min a 1,
       demographic_adjustment := if m.combined_score > 0 then a / m.combined_score else 1 }
      : AdjustedMatch))
  adjusted.insertionSort (fun a b => a.adjusted_score ≥ b.adjusted_score)

/-- A differential-diagnosis candidate (`schemas.Condition`; the plain dict
built by `_generate_differential_diagnosis` carries the same fields). -/
structure Condition where
  name : String
  icd_code : Option String
  probability : ℚ
  confidence : ℚ
  description : String
  symptoms_match : List String
  risk_factors : List String
deriving DecidableEq, Repr

/-- Differential diagnosis (`_generate_differential_diagnosis`): the top 5
adjusted matches become candidates with probability = adjusted score and
confidence = min(similarity + rule, 1). -/
def generate_differential_diagnosis (kb : List (String × CondData))
    (ms : List AdjustedMatch) : List Condition :=
  (ms.take 5).map (fun m =>
    let condition_data := (kb.find? (fun e => e.1 = m.condition)).map Prod.snd
    { name := pyTitle (pyReplaceChar ('_') (' ') m.condition)
      icd_code := condition_data.map CondData.icd_code
      probability := m.adjusted_score
      confidence := min (m.similarity_score + m.rule_score) 1
      description := (condition_data.map CondData.description).getD ""
      symptoms_match := m.exact_matches
      risk_factors := (condition_data.map CondData.risk_factors).getD [] })

/-- The condition-matching stage (`ConditionMatcherAgent.process_symptoms`
steps 2-6), parametrised by the similarity matches delivered by the optional
embedding capability (the empty list when the capability is absent). -/
def conditionMatcherDifferential (kb : List (String × CondData))
    (similarity_matches : List SimilarityMatch) (symptoms : List String)
    (patient_info : PatientInfo) : List Condition :=
  generate_differential_diagnosis kb
    (apply_demographic_adjustments kb
      (combine_and_rank_matches similarity_matches
        (rule_based_matching kb symptoms))
      patient_info)

/-! ## `agents/treatment_retriever.py` -/

/-- Treatment recommendation record (`schemas.Treatment`). -/
structure Treatment where
  name : String
  type : String
  description : String
  dosage : Option String := none
  duration : Option String := none
  side_effects : List String := []
  contraindications : List String := []
  who_guideline : Option String := none
  cdc_guideline : Option String := none
deriving DecidableEq, Repr

/-- One tier of the urgency-rule table (`_load_urgency_rules` value record).
The dict keys are the four `UrgencyLevel` payload strings, modelled as the
members themselves. -/
structure UrgencyRule where
  level : UrgencyLevel
  symptoms : List String
  conditions : List String
  action : String
deriving DecidableEq, Repr

/-- The urgency-rule table in dict insertion order (`_load_urgency_rules`). -/
def urgency_rules : List UrgencyRule :=
  [ { level := .emergency
      symptoms := ["severe chest pain", "difficulty breathing", "severe abdominal pain",
                   "loss of consciousness", "severe bleeding", "signs of stroke",
                   "high fever with confusion", "severe allergic reaction"]
      conditions := ["appendicitis", "heart attack", "stroke", "severe pneumonia"]
      action := "Call 911 or go to emergency room immediately" },
    { level := .urgent
      symptoms := ["persistent high fever", "severe headache", "persistent vomiting",
                   "severe pain", "signs of dehydration"]
      conditions := ["pneumonia", "severe migraine", "severe gastroenteritis"]
      action := "Seek medical care within 24 hours" },
    { level := .moderate
      symptoms := ["moderate fever", "persistent cough", "moderate pain", "fatigue"]
      conditions := ["influenza", "moderate infection", "anxiety disorder"]
      action := "Schedule appointment with healthcare provider within 2-3 days" },
    { level := .low
      symptoms := ["mild cold symptoms", "minor aches", "mild fatigue"]
      conditions := ["common cold", "mild viral infection"]
      action := "Self-care and monitor symptoms" } ]

/-- The identifier derived from a condition's display name
(`name.lower().replace(" ", "_")`), as used by the urgency lookup and the
treatment-catalogue lookup. -/
def conditionIdOf (name : String) : String :=
  pyReplaceChar (' ') ('_') (pyLowerStr name)

/-- Urgency assessment (`TreatmentRetrieverAgent._assess_urgency_level`): LOW
for an empty list; otherwise the first urgency-rule tier whose condition list
contains the top condition's identifier; otherwise probability bands
(>0.8 URGENT, >0.6 MODERATE, else LOW). -/
def assess_urgency_level (conditions : List Condition) : UrgencyLevel :=
  match conditions with
  | [] => .low
  | top_condition :: _ =>
      let condition_name := conditionIdOf top_condition.name
      match urgency_rules.find? (fun r => condition_name ∈ r.conditions) with
      | some r => r.level
      | none =>
          if top_condition.probability > 0.8 then .urgent
          else if top_condition.probability > 0.6 then .moderate
          else .low

/-- The incoming-condition normalisation of
`TreatmentRetrieverAgent.process_conditions`: entries whose probability or
confidence fall outside the `Condition` model's `[0,1]` bounds fail pydantic
validation and are skipped. -/
def normalizeConditions (conditions : List Condition) : List Condition :=
  conditions.filter (fun c =>
    0 ≤ c.probability ∧ c.probability ≤ 1 ∧ 0 ≤ c.confidence ∧ c.confidence ≤ 1)

/-- Contraindication filter
(`TreatmentRetrieverAgent._filter_contraindicated_treatments`): a treatment
is dropped when any of its contraindications is a (lowercased) substring of a
medical-history entry, or any patient allergy is a (lowercased) substring of
the treatment name. -/
def filter_contraindicated_treatments (treatments : List Treatment)
    (patient_info : PatientInfo) : List Treatment :=
  treatments.filter (fun t =>
    let history_hit := t.contraindications.any (fun c =>
      patient_info.medical_history.any (fun mh =>
        charsContain (pyLower mh) (pyLower c)))
    let allergy_hit := patient_info.allergies.any (fun a =>
      charsContain (pyLower t.name) (pyLower a))
    ¬ history_hit ∧ ¬ allergy_hit)

/-- Treatment type priority (`_rank_treatments`; unknown types rank last
with priority 5). -/
def typePriority (t : String) : ℕ :=
  if t = "lifestyle" then 1
  else if t = "medication" then 2
  else if t = "therapy" then 2
  else if t = "treatment" then 3
  else if t = "procedure" then 4
  else 5

/-- Sort key of `_rank_treatments`: `(type_score, -guideline_score)`. -/
def treatmentScore (t : Treatment) : ℕ × ℤ :=
  (typePriority t.type,
   -(((if t.who_guideline.isSome then 1 else 0) +
      (if t.cdc_guideline.isSome then 1 else 0) : ℤ)))

/-- Lexicographic comparison of treatment sort keys (Python tuple order). -/
def keyLe (a b : ℕ × ℤ) : Prop :=
  a.1 < b.1 ∨ (a.1 = b.1 ∧ a.2 ≤ b.2)

instance : DecidableRel keyLe := fun a b => by
  unfold keyLe
  infer_instance

/-- Treatment ranking (`_rank_treatments`): stable ascending sort by
`(type_priority, -guideline_count)`. -/
def rank_treatments (treatments : List Treatment) : List Treatment :=
  treatments.insertionSort (fun a b => keyLe (treatmentScore a) (treatmentScore b))

/-- The treatment list assembled by `process_conditions` steps 2-4 for a
given retrieved treatment pool: contraindication filtering then ranking.
(The retrieval itself flattens the catalogue lists of the top-3 conditions;
the safety claims quantify over an arbitrary retrieved pool.) -/
def treatmentRecommendations (retrieved : List Treatment)
    (patient_info : PatientInfo) : List Treatment :=
  rank_treatments (filter_contraindicated_treatments retrieved patient_info)

/-! ## `agents/coordinator.py` -/

/-- Urgency extraction of `AgentCoordinator._generate_diagnosis_response`:
`UrgencyLevel(treatment_results.get("urgency_level", "moderate"))`. The
returned error models the `ValueError` of the enum call (caught by the outer
`except` of `process_symptoms`). The emergency detector's tier is not an
input of this function. -/
def generate_diagnosis_response_urgency (treatment_urgency_value : Option String) :
    Except String UrgencyLevel :=
  match UrgencyLevel.ofValue (treatment_urgency_value.getD "moderate") with
  | some u => .ok u
  | none => .error "ValueError"

/-- Final urgency of `AgentCoordinator.process_symptoms`: the treatment
stage's urgency string is re-parsed by the response builder; any exception
falls back to the MODERATE error response. The pipeline runs the condition
matcher (with the embedding capability absent, so similarity matches are
empty), normalises its differential, assesses the treatment-stage urgency,
and never consults `detect_emergency`. -/
def process_symptoms_final_urgency (inp : SymptomInput) : UrgencyLevel :=
  match generate_diagnosis_response_urgency
      (some (assess_urgency_level (normalizeConditions
        (conditionMatcherDifferential medical_knowledge_base []
          (inp.symptoms.map Symptom.name) inp.patient_info))).value) with
  | .ok u => u
  | .error _ => .moderate

/-- Entry point with validation: pydantic constructs the `SymptomInput`
before `process_symptoms` can run, so an invalid input is rejected with a
validation error and no stage executes. -/
def processRequest (symptoms : List Symptom) (patient_info : PatientInfo)
    (chief_complaint : String) (additional_notes : Option String) :
    Except String UrgencyLevel := do
  let inp ← mkSymptomInput symptoms patient_info chief_complaint additional_notes
  .ok (process_symptoms_final_urgency inp)

/-- Miniature diagnosis response: the fields the enhanced/basic response
builders of the coordinator disagree on. -/
structure DiagnosisResponseCore where
  urgency_level : UrgencyLevel
  next_steps : List String
  when_to_seek_care : String
deriving DecidableEq, Repr

/-- Basic response assembly (`_generate_diagnosis_response`) restricted to
the core fields. -/
def generate_diagnosis_response_core (treatment_urgency_value : Option String)
    (next_steps : List String) (when_to_seek_care : Option String) :
    Except String DiagnosisResponseCore := do
  let u ← generate_diagnosis_response_urgency treatment_urgency_value
  .ok { urgency_level := u
        next_steps := next_steps
        when_to_seek_care := when_to_seek_care.getD "Consult healthcare provider" }

/-- The `try` body of `_generate_enhanced_diagnosis_response` restricted to
the core fields: when the emergency assessment reports an emergency, the
urgency is taken from the attribute `UrgencyLevel.CRITICAL`, whose absence
raises (`AttributeError`, modelled by the `.error` branch); otherwise the
treatment urgency is re-parsed, emergency steps are prepended and the care
instruction may be overridden. -/
def enhanced_response_try (is_emergency : Bool) (emergency_recommendations : List String)
    (emergency_urgency_high : Bool) (treatment_urgency_value : Option String)
    (next_steps : List String) (when_to_seek_care : Option String) :
    Except String DiagnosisResponseCore := do
  let urgency_level ←
    if is_emergency then
      match UrgencyLevel.byName "CRITICAL" with
      | some u => Except.ok u
      | none => Except.error "AttributeError"
    else
      generate_diagnosis_response_urgency treatment_urgency_value
  let steps := if is_emergency then emergency_recommendations ++ next_steps else next_steps
  let care :=
    if is_emergency then "SEEK IMMEDIATE EMERGENCY CARE"
    else if emergency_urgency_high then "Seek urgent medical attention within 24 hours"
    else (when_to_seek_care.getD "Consult healthcare provider")
  .ok { urgency_level, next_steps := steps, when_to_seek_care := care }

/-- The basic response as delivered to the caller: a failure inside the basic
builder propagates to `process_symptoms`' outer handler, which produces the
MODERATE error response. -/
def basic_response_result (treatment_urgency_value : Option String)
    (next_steps : List String) (when_to_seek_care : Option String) :
    DiagnosisResponseCore :=
  match generate_diagnosis_response_core treatment_urgency_value next_steps
      when_to_seek_care with
  | .ok r => r
  | .error _ =>
      { urgency_level := .moderate
        next_steps := ["Contact healthcare provider for evaluation"]
        when_to_seek_care := "If symptoms persist or worsen" }

/-- Enhanced response assembly (`_generate_enhanced_diagnosis_response`):
any exception in the `try` body falls back to the basic response. -/
def generate_enhanced_diagnosis_response (is_emergency : Bool)
    (emergency_recommendations : List String) (emergency_urgency_high : Bool)
    (treatment_urgency_value : Option String) (next_steps : List String)
    (when_to_seek_care : Option String) : DiagnosisResponseCore :=
  match enhanced_response_try is_emergency emergency_recommendations
      emergency_urgency_high treatment_urgency_value next_steps when_to_seek_care with
  | .ok r => r
  | .error _ =>
      basic_response_result treatment_urgency_value next_steps when_to_seek_care

/-! ## `utils/uncertainty_quantification.py` -/

/-- Confidence level bands (`uncertainty_quantification.ConfidenceLevel`). -/
inductive ConfidenceLevel
  | very_high
  | high
  | moderate
  | low
  | very_low
deriving DecidableEq, Repr

/-- Result record of `_calculate_overall_confidence` (the fields the claims
are about). -/
structure ConfidenceAnalysis where
  overall_confidence : ℚ
  confidence_level : ConfidenceLevel
  reliability_score : ℚ
deriving DecidableEq, Repr

/-- Sample variance of three values (`statistics.variance`, which divides by
`n - 1 = 2`). -/
def variance3 (a b c : ℚ) : ℚ :=
  let m := (a + b + c) / 3
  ((a - m) ^ 2 + (b - m) ^ 2 + (c - m) ^ 2) / 2

/-- Overall confidence calculation
(`UncertaintyQuantifier._calculate_overall_confidence`): domain uncertainties
are converted to confidences, combined with weights 0.25/0.45/0.30, banded
into a confidence level, and the reliability score is `1 - 2·variance`
clamped at 0. -/
def calculate_overall_confidence (symptom_uncertainty diagnostic_uncertainty
    treatment_uncertainty : ℚ) : ConfidenceAnalysis :=
  let symptom_confidence := 1 - symptom_uncertainty
  let diagnostic_confidence := 1 - diagnostic_uncertainty
  let treatment_confidence := 1 - treatment_uncertainty
  let overall_confidence :=
    symptom_confidence * 0.25 + diagnostic_confidence * 0.45 +
      treatment_confidence * 0.30
  let confidence_level :=
    if overall_confidence ≥ 0.9 then ConfidenceLevel.very_high
    else if overall_confidence ≥ 0.75 then ConfidenceLevel.high
    else if overall_confidence ≥ 0.6 then ConfidenceLevel.moderate
    else if overall_confidence ≥ 0.4 then ConfidenceLevel.low
    else ConfidenceLevel.very_low
  let confidence_variance :=
    variance3 symptom_confidence diagnostic_confidence treatment_confidence
  { overall_confidence := overall_confidence
    confidence_level := confidence_level
    reliability_score := max 0 (1 - confidence_variance * 2) }

/-! ## Claim-side (spec) definitions, for comparison with the code-side
functions above -/

/-- Spec-side alert type for each final urgency tier of the emergency
detection stage. -/
def alertTypeFor : UrgencyLevel → SafetyAlert
  | .emergency => .emergency_911
  | .urgent => .urgent_care
  | .moderate => .doctor_consult
  | .low => .monitor_symptoms

/-- Spec-side overall confidence formula:
`0.25·(1-symptom) + 0.45·(1-diagnostic) + 0.30·(1-treatment)`. -/
def specOverallConfidence (symptom diagnostic treatment : ℚ) : ℚ :=
  0.25 * (1 - symptom) + 0.45 * (1 - diagnostic) + 0.30 * (1 - treatment)

/-- Spec-side fixed-band confidence classification (≥0.9 very_high, ≥0.75
high, ≥0.6 moderate, ≥0.4 low, otherwise very_low). -/
def confidenceBand (x : ℚ) : ConfidenceLevel :=
  if x ≥ 0.9 then .very_high
  else if x ≥ 0.75 then .high
  else if x ≥ 0.6 then .moderate
  else if x ≥ 0.4 then .low
  else .very_low

/-- Spec-side rule-based score of a condition: matched patient symptoms over
catalogued symptoms (a patient symptom matches when it is a substring of, or
contains, a catalogued symptom). -/
def specRuleScore (symptoms : List String) (d : CondData) : ℚ :=
  ((symptoms.countP (fun s => d.symptoms.any (fun cs => symMatch s cs))) : ℚ) /
    (d.symptoms.length : ℚ)

/-- Spec-side keyword-ratio gate of an action tier: emergency-911 patterns
require keyword ratio ≥ 0.6, doctor-consult patterns ≥ 0.4; the other tiers
have no ratio gate. -/
def tierGate : SafetyAlert → ℚ
  | .emergency_911 => 0.6
  | .doctor_consult => 0.4
  | .urgent_care => 0
  | .monitor_symptoms => 0

/-- The haystack text `detect_emergency` matches patterns against for a given
input (chief complaint lowered by the caller). -/
def patternText (inp : SymptomInput) : List Char :=
  allSymptomText inp.symptoms (pyLowerStr inp.chief_complaint)

/-- Spec-side unsafety of a treatment for a patient: some catalogued
contraindication is a substring of a medical-history entry, or some declared
allergy is a substring of the treatment name (all lowercased). -/
def specContraindicated (t : Treatment) (patient_info : PatientInfo) : Prop :=
  (∃ c ∈ t.contraindications, ∃ mh ∈ patient_info.medical_history,
      charsContain (pyLower mh) (pyLower c) = true) ∨
  (∃ a ∈ patient_info.allergies, charsContain (pyLower t.name) (pyLower a) = true)

/-- A request whose chief complaint carries every acute-MI keyword while its
single symptom ("zzz", mild) matches no catalogued condition symptom: the
EmergencyDetector reports EMERGENCY for it, while the TreatmentSelector tier
(and hence the coordinator's final urgency) is LOW. -/
def droppedEscalationInput : SymptomInput :=
  { symptoms := [{ name := "zzz", severity := .mild, duration := none,
                   description := none, location := none }]
    patient_info := { age := 30, gender := "male", medical_history := [],
                      medications := [], allergies := [] }
    chief_complaint := "crushing pain chest pressure left arm pain jaw pain chest pain"
    additional_notes := none }

/-- Spec-side well-formedness of the differential diagnosis (claim C6): the
candidates are the top 5 of the adjusted ranking, listed by non-increasing
adjusted score; each probability equals the (1-capped) adjusted score and
each confidence equals `min(similarity + rule, 1)`; and both lie in `[0,1]`. -/
def differentialWellFormed (kb : List (String × CondData))
    (sims : List SimilarityMatch) (symptoms : List String)
    (patient_info : PatientInfo) : Prop :=
  let adjusted := apply_demographic_adjustments kb
    (combine_and_rank_matches sims (rule_based_matching kb symptoms)) patient_info
  let differential := conditionMatcherDifferential kb sims symptoms patient_info
  (∀ c ∈ differential,
     0 ≤ c.probability ∧ c.probability ≤ 1 ∧ 0 ≤ c.confidence ∧ c.confidence ≤ 1) ∧
  (differential.map Condition.probability).Sorted (· ≥ ·) ∧
  differential.length ≤ 5 ∧
  differential.map Condition.probability =
    (adjusted.take 5).map AdjustedMatch.adjusted_score ∧
  (∀ c ∈ differential, ∃ m ∈ adjusted,
     c.probability = m.adjusted_score ∧
     c.confidence = min (m.similarity_score + m.rule_score) 1)

/-- Totality of the descending combined-score relation. -/
instance : IsTotal CombinedScore (fun a b => a.combined_score ≥ b.combined_score) :=
  ⟨fun a b => le_total b.combined_score a.combined_score⟩

/-- Transitivity of the descending combined-score relation. -/
instance : IsTrans CombinedScore (fun a b => a.combined_score ≥ b.combined_score) :=
  ⟨fun _ _ _ h1 h2 => le_trans h2 h1⟩

/-- Totality of the descending adjusted-score relation. -/
instance : IsTotal AdjustedMatch (fun a b => a.adjusted_score ≥ b.adjusted_score) :=
  ⟨fun a b => le_total b.adjusted_score a.adjusted_score⟩

/-- Transitivity of the descending adjusted-score relation. -/
instance : IsTrans AdjustedMatch (fun a b => a.adjusted_score ≥ b.adjusted_score) :=
  ⟨fun _ _ _ h1 h2 => le_trans h2 h1⟩

end HealthChecker

namespace HealthChecker

/-! ## Theorems -/

/-- C2: every input whose symptom list is empty is rejected with the
`symptoms_not_empty` validation error before any pipeline stage runs: the
validated entry point returns the validation error and never produces a
pipeline result, so no scoring begins. -/
theorem empty_symptoms_rejected (patient_info : PatientInfo)
    (chief_complaint : String) (additional_notes : Option String) :
    processRequest [] patient_info chief_complaint additional_notes =
      Except.error "At least one symptom must be provided" := rfl

/-- C8: for every triple of domain uncertainty estimates the overall
confidence equals `0.25·(1-symptom) + 0.45·(1-diagnostic) + 0.30·(1-treatment)`
exactly, the confidence level is the fixed-band classification of that value,
and the reliability score is `1 - 2·variance(domain confidences)` clamped to
be ≥ 0 (the source's `statistics.variance` is the sample variance). -/
theorem overall_confidence_formula (s d t : ℚ) :
    calculate_overall_confidence s d t =
      { overall_confidence := specOverallConfidence s d t
        confidence_level := confidenceBand (specOverallConfidence s d t)
        reliability_score := max 0 (1 - 2 * variance3 (1 - s) (1 - d) (1 - t)) } := by
  have h : (1 - s) * 0.25 + (1 - d) * 0.45 + (1 - t) * 0.30 =
      specOverallConfidence s d t := by
    unfold specOverallConfidence; ring
  simp only [calculate_overall_confidence, confidenceBand, h,
    ConfidenceAnalysis.mk.injEq]
  refine ⟨trivial, trivial, ?_⟩
  congr 1
  ring

/-- C9: the `UrgencyLevel` enum has exactly the members EMERGENCY, URGENT,
MODERATE, LOW — attribute lookup of `CRITICAL` fails — and therefore the
enhanced diagnosis response builder, whenever the emergency assessment
reports an emergency, hits its exception handler and returns the basic
diagnosis response instead. -/
theorem enhanced_response_falls_back_on_emergency :
    (UrgencyLevel.members = [.emergency, .urgent, .moderate, .low] ∧
     (∀ u : UrgencyLevel, u ∈ UrgencyLevel.members) ∧
     UrgencyLevel.byName "CRITICAL" = none) ∧
    (∀ (emergency_recommendations : List String) (emergency_urgency_high : Bool)
       (treatment_urgency_value : Option String) (next_steps : List String)
       (when_to_seek_care : Option String),
      generate_enhanced_diagnosis_response true emergency_recommendations
          emergency_urgency_high treatment_urgency_value next_steps when_to_seek_care =
        basic_response_result treatment_urgency_value next_steps when_to_seek_care) := by
  refine ⟨⟨rfl, ?_, rfl⟩, ?_⟩
  · intro u; cases u <;> decide
  · intro er hi tu ns care
    rfl

/-- C10: the result of `detect_emergency` always contains exactly one safety
alert, whose type corresponds to the final urgency level of the stage
(EMERGENCY→911, URGENT→urgent care, MODERATE→doctor consult, LOW→monitor
symptoms); in particular the alert list is never empty. -/
theorem detect_emergency_single_alert (inp : SymptomInput) :
    (detect_emergency inp).safety_alerts.length = 1 ∧
    (detect_emergency inp).safety_alerts.map SafetyAlertEntry.type =
      [alertTypeFor (detect_emergency inp).urgency_level] ∧
    (detect_emergency inp).safety_alerts ≠ [] := by
  have h : (detect_emergency inp).safety_alerts =
      safetyAlertsFor ((detect_emergency inp).urgency_level) := rfl
  rw [h]
  cases (detect_emergency inp).urgency_level <;>
    exact ⟨rfl, rfl, by simp [safetyAlertsFor]⟩

/-- C7: for every non-empty ranked condition list, the treatment stage's
urgency is the tier of the first urgency rule whose condition list contains
the top condition's derived identifier; when no rule matches, the probability
bands `>0.8 → URGENT`, `>0.6 → MODERATE`, else `LOW` apply. -/
theorem assess_urgency_rule_lookup (top_condition : Condition)
    (rest : List Condition) :
    (∀ r : UrgencyRule,
        urgency_rules.find?
            (fun r' => conditionIdOf top_condition.name ∈ r'.conditions) = some r →
        assess_urgency_level (top_condition :: rest) = r.level) ∧
    (urgency_rules.find?
        (fun r' => conditionIdOf top_condition.name ∈ r'.conditions) = none →
      assess_urgency_level (top_condition :: rest) =
        (if top_condition.probability > 0.8 then UrgencyLevel.urgent
         else if top_condition.probability > 0.6 then UrgencyLevel.moderate
         else UrgencyLevel.low)) := by
  constructor
  · intro r hr
    simp [assess_urgency_level, hr]
  · intro hr
    simp [assess_urgency_level, hr]

/-- Witness for C7: the top condition "Appendicitis" (identifier
`appendicitis`) is found in the EMERGENCY tier of the urgency-rule table and
yields EMERGENCY; the unknown condition "Zzz" with probability 1 falls back
to the probability bands and yields URGENT. (Multi-word display names derive
underscored identifiers, which the space-separated table entries never
contain — the single-word entries are the reachable ones.) -/
theorem assess_urgency_rule_lookup_witness :
    (assess_urgency_level
        [{ name := "Appendicitis", icd_code := none, probability := 0, confidence := 0,
           description := "", symptoms_match := [], risk_factors := [] }] =
      UrgencyLevel.emergency) ∧
    (assess_urgency_level
        [{ name := "Zzz", icd_code := none, probability := 1, confidence := 0,
           description := "", symptoms_match := [], risk_factors := [] }] =
      UrgencyLevel.urgent) := by
  constructor
  · exact (assess_urgency_rule_lookup _ []).1
      { level := .emergency
        symptoms := ["severe chest pain", "difficulty breathing", "severe abdominal pain",
                     "loss of consciousness", "severe bleeding", "signs of stroke",
                     "high fever with confusion", "severe allergic reaction"]
        conditions := ["appendicitis", "heart attack", "stroke", "severe pneumonia"]
        action := "Call 911 or go to emergency room immediately" }
      (by decide)
  · have h := (assess_urgency_rule_lookup
      { name := "Zzz", icd_code := none, probability := 1, confidence := 0,
        description := "", symptoms_match := [], risk_factors := [] } []).2 (by decide)
    rw [h]
    norm_num

/-- C3: every treatment in the recommended list (contraindication filter then
ranking) is safe for the patient: none of its catalogued contraindications is
a substring of a medical-history entry and no declared allergy is a substring
of its name — contraindicated treatments are excluded from the list entirely,
not merely warned about. -/
theorem recommended_treatments_not_contraindicated
    (retrieved : List Treatment) (patient_info : PatientInfo) (t : Treatment)
    (ht : t ∈ treatmentRecommendations retrieved patient_info) :
    ¬ specContraindicated t patient_info := by
  have hmem : t ∈ filter_contraindicated_treatments retrieved patient_info := by
    unfold treatmentRecommendations rank_treatments at ht
    exact ((List.perm_insertionSort _ _).mem_iff).mp ht
  unfold filter_contraindicated_treatments at hmem
  rw [List.mem_filter] at hmem
  obtain ⟨-, hpred⟩ := hmem
  simp only [decide_eq_true_eq, not_and, List.any_eq_true, not_exists, not_or] at hpred
  intro hc
  rcases hc with ⟨c, hcmem, mh, hmhmem, hsub⟩ | ⟨a, hamem, hsub⟩
  · obtain ⟨h1, -⟩ := hpred
    exact absurd hsub (by simpa using h1 c hcmem mh hmhmem)
  · obtain ⟨-, h2⟩ := hpred
    exact absurd hsub (by simpa using h2 a hamem)

/-- Witness for C3: with history "chronic kidney disease" and allergy
"penicillin", Amoxicillin survives the filter (its contraindication
"penicillin allergy" is not a history substring, and "penicillin" is not a
substring of "amoxicillin") and the theorem certifies it is not
contraindicated. -/
theorem recommended_treatments_not_contraindicated_witness :
    ¬ specContraindicated
        { name := "Amoxicillin", type := "medication",
          description := "First-line antibiotic for community-acquired pneumonia",
          dosage := some "500mg three times daily", duration := some "7-10 days",
          side_effects := ["diarrhea", "allergic reactions"],
          contraindications := ["penicillin allergy"],
          who_guideline := some "WHO_PNEUMONIA_2019",
          cdc_guideline := some "CDC_PNEUMONIA_2022" }
        { age := 40, gender := "female",
          medical_history := ["chronic kidney disease"],
          medications := [], allergies := ["penicillin"] } :=
  recommended_treatments_not_contraindicated
    [{ name := "Amoxicillin", type := "medication",
       description := "First-line antibiotic for community-acquired pneumonia",
       dosage := some "500mg three times daily", duration := some "7-10 days",
       side_effects := ["diarrhea", "allergic reactions"],
       contraindications := ["penicillin allergy"],
       who_guideline := some "WHO_PNEUMONIA_2019",
       cdc_guideline := some "CDC_PNEUMONIA_2022" }]
    _ _ (by decide)

/-- The keyword score is never negative. -/
theorem keywordScore_nonneg (text : List Char) (p : EmergencyPattern) :
    0 ≤ keywordScore text p := by
  unfold keywordScore
  split
  · exact le_refl 0
  · positivity

/-- A zero keyword score means no keyword matched. -/
theorem keywordScore_eq_zero {text : List Char} {p : EmergencyPattern}
    (h : keywordScore text p = 0) : keywordMatches text p = 0 := by
  unfold keywordScore at h
  split at h
  · rename_i he
    rw [List.isEmpty_iff] at he
    simp [keywordMatches, he]
  · rename_i he
    rw [div_eq_zero_iff] at h
    rcases h with h | h
    · exact_mod_cast h
    · exfalso
      rw [List.isEmpty_iff, ← List.length_eq_zero] at he
      exact he (by exact_mod_cast h)

/-- Every detected emergency of the pattern loop comes from the initial
accumulator or from a table pattern whose match score reached its
confidence threshold. -/
theorem patternScan_detected_mem {symptoms : List Symptom} {chief : String} :
    ∀ {l : List (String × EmergencyPattern)} {acc : ScanState}
      {d : DetectedEmergency}, d ∈ (patternScan symptoms chief l acc).detected →
      d ∈ acc.detected ∨
        ∃ pe ∈ l, d.pattern = pe.2.patternName ∧
          calculate_pattern_match symptoms chief pe.2 ≥ pe.2.confidence_threshold := by
  intro l
  induction l with
  | nil => exact fun hd => Or.inl hd
  | cons e rest ih =>
      obtain ⟨pid, p⟩ := e
      intro acc d hd
      rw [patternScan] at hd
      by_cases hs : calculate_pattern_match symptoms chief p ≥ p.confidence_threshold
      · rw [if_pos hs] at hd
        rcases ih hd with hin | ⟨pe, hpe, hnm, hge⟩
        · simp only [List.mem_append, List.mem_singleton] at hin
          rcases hin with hin | rfl
          · exact Or.inl hin
          · exact Or.inr ⟨(pid, p), List.mem_cons_self _ _, rfl, hs⟩
        · exact Or.inr ⟨pe, List.mem_cons_of_mem _ hpe, hnm, hge⟩
      · rw [if_neg hs] at hd
        rcases ih hd with hin | ⟨pe, hpe, hnm, hge⟩
        · exact Or.inl hin
        · exact Or.inr ⟨pe, List.mem_cons_of_mem _ hpe, hnm, hge⟩

/-- The detected-emergencies list of `detect_emergency` is the pattern loop's
(the severity-escalation step changes only urgency and score). -/
theorem detect_emergency_detected (inp : SymptomInput) :
    (detect_emergency inp).detected_emergencies =
      (patternScan inp.symptoms (pyLowerStr inp.chief_complaint)
        emergency_patterns ⟨0, [], .low⟩).detected := by
  unfold detect_emergency
  by_cases h : check_severity_escalation inp.symptoms <;> simp [h]

/-- Every catalogued pattern's confidence threshold is positive. -/
theorem emergency_thresholds_pos :
    ∀ pe ∈ emergency_patterns, (0 : ℚ) < pe.2.confidence_threshold := by
  intro pe hpe
  simp only [emergency_patterns, List.mem_cons, List.not_mem_nil, or_false] at hpe
  rcases hpe with rfl | rfl | rfl | rfl | rfl | rfl | rfl | rfl <;> norm_num

/-- C4: for every input and every catalogued emergency pattern, a zero
keyword ratio gives score 0; an emergency-911 pattern with keyword ratio
below 0.6 and a doctor-consult pattern with ratio below 0.4 score 0
regardless of severity or associated bonuses — in general a ratio below the
tier's gate gives score 0 — and a zero-score pattern is never reported among
the detected emergencies. -/
theorem pattern_keyword_gating (inp : SymptomInput) (pid : String)
    (p : EmergencyPattern) (hp : (pid, p) ∈ emergency_patterns) :
    (keywordScore (patternText inp) p = 0 →
      calculate_pattern_match inp.symptoms (pyLowerStr inp.chief_complaint) p = 0) ∧
    (p.action = .emergency_911 → keywordScore (patternText inp) p < 0.6 →
      calculate_pattern_match inp.symptoms (pyLowerStr inp.chief_complaint) p = 0) ∧
    (p.action = .doctor_consult → keywordScore (patternText inp) p < 0.4 →
      calculate_pattern_match inp.symptoms (pyLowerStr inp.chief_complaint) p = 0) ∧
    (keywordScore (patternText inp) p < tierGate p.action →
      calculate_pattern_match inp.symptoms (pyLowerStr inp.chief_complaint) p = 0) ∧
    (calculate_pattern_match inp.symptoms (pyLowerStr inp.chief_complaint) p = 0 →
      ∀ d ∈ (detect_emergency inp).detected_emergencies,
        d.pattern ≠ p.patternName) := by
  have hzero : keywordScore (patternText inp) p = 0 →
      calculate_pattern_match inp.symptoms (pyLowerStr inp.chief_complaint) p = 0 := by
    intro h
    have hm := keywordScore_eq_zero h
    unfold patternText at hm
    simp [calculate_pattern_match, hm]
  have h911 : p.action = .emergency_911 → keywordScore (patternText inp) p < 0.6 →
      calculate_pattern_match inp.symptoms (pyLowerStr inp.chief_complaint) p = 0 := by
    intro ha hlt
    unfold patternText at hlt
    by_cases hm : keywordMatches (allSymptomText inp.symptoms (pyLowerStr inp.chief_complaint)) p = 0
    · simp [calculate_pattern_match, hm]
    · simp [calculate_pattern_match, hm, ha, hlt]
  have hdoc : p.action = .doctor_consult → keywordScore (patternText inp) p < 0.4 →
      calculate_pattern_match inp.symptoms (pyLowerStr inp.chief_complaint) p = 0 := by
    intro ha hlt
    unfold patternText at hlt
    by_cases hm : keywordMatches (allSymptomText inp.symptoms (pyLowerStr inp.chief_complaint)) p = 0
    · simp [calculate_pattern_match, hm]
    · simp [calculate_pattern_match, hm, ha, hlt]
  have hgate : keywordScore (patternText inp) p < tierGate p.action →
      calculate_pattern_match inp.symptoms (pyLowerStr inp.chief_complaint) p = 0 := by
    intro h
    cases ha : p.action
    · exact h911 ha (by rw [ha] at h; exact h)
    · exfalso
      rw [ha] at h
      exact absurd h (not_lt.mpr (keywordScore_nonneg _ _))
    · exact hdoc ha (by rw [ha] at h; exact h)
    · exfalso
      rw [ha] at h
      exact absurd h (not_lt.mpr (keywordScore_nonneg _ _))
  refine ⟨hzero, h911, hdoc, hgate, ?_⟩
  intro h0 d hd hdp
  rw [detect_emergency_detected] at hd
  rcases patternScan_detected_mem hd with hin | ⟨pe, hpe, hnm, hge⟩
  · exact absurd hin (List.not_mem_nil d)
  · have hpe_eq : pe = (pid, p) := by
      refine List.inj_on_of_nodup_map (f := fun e => e.2.patternName) ?_ hpe hp ?_
      · decide
      · show pe.2.patternName = p.patternName
        rw [← hnm, hdp]
    rw [hpe_eq] at hge
    rw [h0] at hge
    exact absurd hge (not_le.mpr (emergency_thresholds_pos (pid, p) hp))

/-- Witness for C4: against the input "mild jaw pain" (one mild symptom
"tired"), the acute-MI pattern matches only 1 of 5 keywords (ratio 0.2 <
0.6), so its score is 0 and no detected emergency carries its name. -/
theorem pattern_keyword_gating_witness :
    calculate_pattern_match
        [{ name := "tired", severity := .mild, duration := none,
           description := none, location := none }]
        (pyLowerStr "mild jaw pain")
        { patternName := "Acute Myocardial Infarction"
          keywords := ["chest pain", "crushing pain", "chest pressure", "left arm pain", "jaw pain"]
          associated := ["sweating", "nausea", "shortness of breath", "dizziness"]
          severity_triggers := ["severe", "crushing", "intense", "10/10", "worst ever"]
          action := .emergency_911
          message := "CALL 911 IMMEDIATELY - Possible heart attack"
          confidence_threshold := 0.4 } = 0 ∧
    ((detect_emergency
        { symptoms := [{ name := "tired", severity := .mild, duration := none,
                         description := none, location := none }]
          patient_info := { age := 30, gender := "male", medical_history := [],
                            medications := [], allergies := [] }
          chief_complaint := "mild jaw pain"
          additional_notes := none }).detected_emergencies.all
      (fun d => d.pattern ≠ "Acute Myocardial Infarction")) = true := by
  have hp : ("acute_mi",
      ({ patternName := "Acute Myocardial Infarction"
         keywords := ["chest pain", "crushing pain", "chest pressure", "left arm pain", "jaw pain"]
         associated := ["sweating", "nausea", "shortness of breath", "dizziness"]
         severity_triggers := ["severe", "crushing", "intense", "10/10", "worst ever"]
         action := .emergency_911
         message := "CALL 911 IMMEDIATELY - Possible heart attack"
         confidence_threshold := 0.4 } : EmergencyPattern)) ∈ emergency_patterns :=
    List.Mem.head _
  have hthm := pattern_keyword_gating
    { symptoms := [{ name := "tired", severity := .mild, duration := none,
                     description := none, location := none }]
      patient_info := { age := 30, gender := "male", medical_history := [],
                        medications := [], allergies := [] }
      chief_complaint := "mild jaw pain"
      additional_notes := none }
    "acute_mi" _ hp
  have hks : keywordScore
      (patternText
        { symptoms := [{ name := "tired", severity := .mild, duration := none,
                         description := none, location := none }]
          patient_info := { age := 30, gender := "male", medical_history := [],
                            medications := [], allergies := [] }
          chief_complaint := "mild jaw pain"
          additional_notes := none })
      { patternName := "Acute Myocardial Infarction"
        keywords := ["chest pain", "crushing pain", "chest pressure", "left arm pain", "jaw pain"]
        associated := ["sweating", "nausea", "shortness of breath", "dizziness"]
        severity_triggers := ["severe", "crushing", "intense", "10/10", "worst ever"]
        action := .emergency_911
        message := "CALL 911 IMMEDIATELY - Possible heart attack"
        confidence_threshold := 0.4 } < 0.6 := by
    unfold keywordScore
    rw [if_neg (by decide)]
    rw [show keywordMatches
        (patternText
          { symptoms := [{ name := "tired", severity := .mild, duration := none,
                           description := none, location := none }]
            patient_info := { age := 30, gender := "male", medical_history := [],
                              medications := [], allergies := [] }
            chief_complaint := "mild jaw pain"
            additional_notes := none })
        { patternName := "Acute Myocardial Infarction"
          keywords := ["chest pain", "crushing pain", "chest pressure", "left arm pain", "jaw pain"]
          associated := ["sweating", "nausea", "shortness of breath", "dizziness"]
          severity_triggers := ["severe", "crushing", "intense", "10/10", "worst ever"]
          action := .emergency_911
          message := "CALL 911 IMMEDIATELY - Possible heart attack"
          confidence_threshold := 0.4 } = 1 from by decide]
    norm_num
  have hsc := hthm.2.1 rfl hks
  refine ⟨hsc, ?_⟩
  rw [List.all_eq_true]
  intro d hd
  simpa using hthm.2.2.2.2 hsc d hd

/-- The matched-symptom list's length is the number of patient symptoms that
match some catalogued symptom of the condition. -/
theorem exactMatches_length (symptoms condition_symptoms : List String) :
    (exactMatches symptoms condition_symptoms).length =
      symptoms.countP (fun s => condition_symptoms.any (fun cs => symMatch s cs)) := by
  unfold exactMatches
  induction symptoms with
  | nil => rfl
  | cons s ss ih =>
      rw [List.filterMap_cons, List.countP_cons]
      cases hf : condition_symptoms.find? (fun cs => symMatch s cs) with
      | none =>
          have hany : condition_symptoms.any (fun cs => symMatch s cs) = false := by
            rw [List.any_eq_false]
            intro cs hcs
            have := List.find?_eq_none.mp hf cs hcs
            simpa using this
          simp [ih, hany]
      | some cs =>
          have hany : condition_symptoms.any (fun cs => symMatch s cs) = true :=
            List.any_eq_true.mpr
              ⟨cs, List.mem_of_find?_eq_some hf, List.find?_some hf⟩
          simp [ih, hany]

/-- Characterization of the rule-based match list: every entry is a
knowledge-base condition with a positive match percentage equal to the
matched-over-catalogued symptom fraction. -/
theorem rule_based_matching_char (kb : List (String × CondData))
    (symptoms : List String) :
    ∀ m ∈ rule_based_matching kb symptoms,
      0 < m.match_percentage ∧
      ∃ e ∈ kb, m.condition = e.1 ∧ m.match_percentage = specRuleScore symptoms e.2 := by
  intro m hm
  have hm' : m ∈ kb.filterMap (ruleMatchOf symptoms) := by
    unfold rule_based_matching at hm
    exact ((List.perm_insertionSort _ _).mem_iff).mp hm
  obtain ⟨e, he, hsome⟩ := List.mem_filterMap.mp hm'
  unfold ruleMatchOf at hsome
  simp only at hsome
  split at hsome
  · rw [if_neg (lt_irrefl 0)] at hsome
    exact absurd hsome (by simp)
  · split at hsome
    · rename_i hemp hpos
      obtain rfl := Option.some_injective _ hsome
      refine ⟨hpos, e, he, rfl, ?_⟩
      show ((exactMatches symptoms e.2.symptoms).length : ℚ) /
          (e.2.symptoms.length : ℚ) = specRuleScore symptoms e.2
      rw [exactMatches_length]
      rfl
    · exact absurd hsome (by simp)

/-- Structural characterization of a dict upsert: a member of the updated
table is an untouched old member, an updated old member, or the new entry. -/
theorem upsertRule_mem_pred {r : RuleMatch} {Q : CombinedScore → Prop}
    (hmod : ∀ x, Q x →
      Q { x with rule_score := r.match_percentage, exact_matches := r.exact_matches })
    (hnew : Q ⟨r.condition, 0, 0, r.match_percentage, r.exact_matches⟩) :
    ∀ {l : List CombinedScore}, (∀ e ∈ l, Q e) → ∀ e ∈ upsertRule l r, Q e := by
  intro l
  induction l with
  | nil =>
      intro _ e he
      rw [upsertRule] at he
      simp only [List.mem_singleton] at he
      exact he ▸ hnew
  | cons a t ih =>
      intro hl e he
      rw [upsertRule] at he
      split at he
      · rcases List.mem_cons.mp he with rfl | hmem
        · exact hmod a (hl a (List.mem_cons_self _ _))
        · exact hl e (List.mem_cons_of_mem _ hmem)
      · rcases List.mem_cons.mp he with rfl | hmem
        · exact hl e (List.mem_cons_self _ _)
        · exact ih (fun x hx => hl x (List.mem_cons_of_mem _ hx)) e hmem

/-- A predicate preserved by every upsert of the rule list holds for all
members of the folded combined-score table. -/
theorem foldl_upsert_mem_pred {Q : CombinedScore → Prop} :
    ∀ {rules : List RuleMatch} {base : List CombinedScore},
      (∀ e ∈ base, Q e) →
      (∀ r ∈ rules, ∀ x, Q x →
        Q { x with rule_score := r.match_percentage, exact_matches := r.exact_matches }) →
      (∀ r ∈ rules, Q ⟨r.condition, 0, 0, r.match_percentage, r.exact_matches⟩) →
      ∀ e ∈ rules.foldl upsertRule base, Q e := by
  intro rules
  induction rules with
  | nil => intro base hb _ _ e he; exact hb e he
  | cons r rest ih =>
      intro base hb hmod hnew e he
      rw [List.foldl_cons] at he
      refine ih ?_ (fun r' hr' => hmod r' (List.mem_cons_of_mem _ hr'))
        (fun r' hr' => hnew r' (List.mem_cons_of_mem _ hr')) e he
      exact upsertRule_mem_pred (hmod r (List.mem_cons_self _ _))
        (hnew r (List.mem_cons_self _ _)) hb

/-- Bounds on the merged score table: with similarity scores in `[0,1]` and
rule scores nonnegative, every merged entry has similarity in `[0,1]`, a
nonnegative rule score, a combined score equal to
similarity·0.6 + rule·0.4, and hence a nonnegative combined score. -/
theorem combine_and_rank_bounds (sims : List SimilarityMatch)
    (rules : List RuleMatch)
    (hsim : ∀ s ∈ sims, 0 ≤ s.similarity_score ∧ s.similarity_score ≤ 1)
    (hrules : ∀ r ∈ rules, 0 ≤ r.match_percentage) :
    ∀ e ∈ combine_and_rank_matches sims rules,
      0 ≤ e.similarity_score ∧ e.similarity_score ≤ 1 ∧ 0 ≤ e.rule_score ∧
      e.combined_score = e.similarity_score * 0.6 + e.rule_score * 0.4 ∧
      0 ≤ e.combined_score := by
  intro e he
  unfold combine_and_rank_matches at he
  have he' := ((List.perm_insertionSort _ _).mem_iff).mp he
  obtain ⟨x, hx, rfl⟩ := List.mem_map.mp he'
  have hxb : 0 ≤ x.similarity_score ∧ x.similarity_score ≤ 1 ∧ 0 ≤ x.rule_score := by
    refine foldl_upsert_mem_pred
      (Q := fun y => 0 ≤ y.similarity_score ∧ y.similarity_score ≤ 1 ∧ 0 ≤ y.rule_score)
      ?_ ?_ ?_ x hx
    · intro y hy
      obtain ⟨s, hs, rfl⟩ := List.mem_map.mp hy
      exact ⟨(hsim s hs).1, (hsim s hs).2, le_refl 0⟩
    · intro r hr y hyb
      exact ⟨hyb.1, hyb.2.1, hrules r hr⟩
    · intro r hr
      exact ⟨le_refl 0, zero_le_one, hrules r hr⟩
  obtain ⟨h1, h2, h3⟩ := hxb
  refine ⟨h1, h2, h3, rfl, ?_⟩
  show 0 ≤ x.similarity_score * 0.6 + x.rule_score * 0.4
  positivity

/-- C5: every rule-based match entry is a knowledge-base condition whose
match percentage equals (matching patient symptoms)/(catalogued symptoms) and
is positive (zero-score conditions are dropped); every merged entry's
combined score is 0.6·similarity + 0.4·rule (a missing signal contributes 0
by construction); and the merged list is sorted descending by combined
score. -/
theorem rule_and_merge_scoring (kb : List (String × CondData))
    (symptoms : List String) (similarity_matches : List SimilarityMatch) :
    (∀ m ∈ rule_based_matching kb symptoms,
       0 < m.match_percentage ∧
       ∃ e ∈ kb, m.condition = e.1 ∧ m.match_percentage = specRuleScore symptoms e.2) ∧
    (∀ e ∈ combine_and_rank_matches similarity_matches (rule_based_matching kb symptoms),
       e.combined_score = 0.6 * e.similarity_score + 0.4 * e.rule_score) ∧
    (combine_and_rank_matches similarity_matches
        (rule_based_matching kb symptoms)).Sorted
      (fun a b => a.combined_score ≥ b.combined_score) := by
  refine ⟨rule_based_matching_char kb symptoms, ?_, ?_⟩
  · intro e he
    unfold combine_and_rank_matches at he
    have he' := ((List.perm_insertionSort _ _).mem_iff).mp he
    obtain ⟨x, -, rfl⟩ := List.mem_map.mp he'
    show x.similarity_score * 0.6 + x.rule_score * 0.4 =
      0.6 * x.similarity_score + 0.4 * x.rule_score
    ring
  · exact List.sorted_insertionSort _ _

/-- The demographic multiplier chain never turns a nonnegative combined score
negative (all multipliers are nonnegative). -/
theorem adjustScore_nonneg (kb : List (String × CondData))
    (patient_info : PatientInfo) (m : CombinedScore)
    (h : 0 ≤ m.combined_score) : 0 ≤ adjustScore kb patient_info m := by
  unfold adjustScore
  split_ifs <;> positivity

/-- Bounds on the demographically adjusted matches: with well-bounded merged
entries, every adjusted match has an adjusted score in `[0,1]` equal to the
1-capped multiplier chain, similarity in `[0,1]` and a nonnegative rule
score. -/
theorem adjusted_matches_bounds (kb : List (String × CondData))
    (cs : List CombinedScore) (patient_info : PatientInfo)
    (hcs : ∀ e ∈ cs, 0 ≤ e.similarity_score ∧ e.similarity_score ≤ 1 ∧
      0 ≤ e.rule_score ∧ 0 ≤ e.combined_score) :
    ∀ m ∈ apply_demographic_adjustments kb cs patient_info,
      0 ≤ m.adjusted_score ∧ m.adjusted_score ≤ 1 ∧
      0 ≤ m.similarity_score ∧ m.similarity_score ≤ 1 ∧ 0 ≤ m.rule_score := by
  intro m hm
  unfold apply_demographic_adjustments at hm
  have hm' := ((List.perm_insertionSort _ _).mem_iff).mp hm
  obtain ⟨x, hx, rfl⟩ := List.mem_map.mp hm'
  obtain ⟨h1, h2, h3, h4⟩ := hcs x hx
  refine ⟨?_, ?_, h1, h2, h3⟩
  · exact le_min (adjustScore_nonneg kb patient_info x h4) zero_le_one
  · exact min_le_right _ _

/-- C6: the differential diagnosis is the top 5 of the adjusted ranking,
sorted by non-increasing adjusted score, with probability = (1-capped)
adjusted score and confidence = min(similarity + rule, 1), all within [0,1]
— provided the optional similarity capability delivers cosine scores in
[0,1] (with the capability absent the list is empty and the hypothesis is
vacuous). -/
theorem differential_top5_bounds (kb : List (String × CondData))
    (sims : List SimilarityMatch) (symptoms : List String)
    (patient_info : PatientInfo)
    (hsim : ∀ s ∈ sims, 0 ≤ s.similarity_score ∧ s.similarity_score ≤ 1) :
    differentialWellFormed kb sims symptoms patient_info := by
  have hrules := fun r hr => (rule_based_matching_char kb symptoms r hr).1.le
  have hcomb := combine_and_rank_bounds sims (rule_based_matching kb symptoms)
    hsim hrules
  have hcs : ∀ e ∈ combine_and_rank_matches sims (rule_based_matching kb symptoms),
      0 ≤ e.similarity_score ∧ e.similarity_score ≤ 1 ∧
      0 ≤ e.rule_score ∧ 0 ≤ e.combined_score := by
    intro e he
    obtain ⟨a, b, c, -, d⟩ := hcomb e he
    exact ⟨a, b, c, d⟩
  have hadj := adjusted_matches_bounds kb _ patient_info hcs
  have hsorted : (apply_demographic_adjustments kb
      (combine_and_rank_matches sims (rule_based_matching kb symptoms))
      patient_info).Sorted (fun a b => a.adjusted_score ≥ b.adjusted_score) := by
    unfold apply_demographic_adjustments
    exact List.sorted_insertionSort _ _
  unfold differentialWellFormed
  refine ⟨?_, ?_, ?_, ?_, ?_⟩
  · intro c hc
    unfold conditionMatcherDifferential generate_differential_diagnosis at hc
    obtain ⟨x, hx, rfl⟩ := List.mem_map.mp hc
    obtain ⟨p1, p2, p3, p4, p5⟩ := hadj x (List.take_subset 5 _ hx)
    refine ⟨p1, p2, ?_, min_le_right _ _⟩
    exact le_min (add_nonneg p3 p5) zero_le_one
  · unfold conditionMatcherDifferential generate_differential_diagnosis
    rw [List.map_map]
    have htp : (List.Pairwise (fun a b : AdjustedMatch => a.adjusted_score ≥ b.adjusted_score)
        ((apply_demographic_adjustments kb
          (combine_and_rank_matches sims (rule_based_matching kb symptoms))
          patient_info).take 5)) :=
      List.Pairwise.sublist (List.take_sublist _ _) hsorted
    exact List.Pairwise.map _ (fun a b h => h) htp
  · unfold conditionMatcherDifferential generate_differential_diagnosis
    rw [List.length_map]
    exact List.length_take_le _ _
  · unfold conditionMatcherDifferential generate_differential_diagnosis
    rw [List.map_map]
    rfl
  · intro c hc
    unfold conditionMatcherDifferential generate_differential_diagnosis at hc
    obtain ⟨x, hx, rfl⟩ := List.mem_map.mp hc
    exact ⟨x, List.take_subset 5 _ hx, rfl, rfl⟩

/-- Witness for C6: with the similarity capability absent (empty similarity
list, hypothesis vacuous), a one-condition knowledge base and the symptom
"fever" produce a well-formed differential. -/
theorem differential_top5_bounds_witness :
    differentialWellFormed
      [("influenza",
        { symptoms := ["fever", "fatigue", "body aches", "headache", "cough", "sore throat"]
          icd_code := "J11.1"
          description := "Acute respiratory illness caused by influenza viruses"
          common_age_groups := ["all"]
          risk_factors := ["immunocompromised", "elderly", "chronic conditions"] })]
      [] ["fever"]
      { age := 30, gender := "male", medical_history := [], medications := [],
        allergies := [] } :=
  differential_top5_bounds _ _ _ _ (by simp)

/-- Once a pattern has escalated the scan state to EMERGENCY, no later
pattern can lower it. -/
theorem patternScan_emergency_absorbing {symptoms : List Symptom} {chief : String} :
    ∀ {l : List (String × EmergencyPattern)} {acc : ScanState},
      acc.urgency = .emergency →
      (patternScan symptoms chief l acc).urgency = .emergency := by
  intro l
  induction l with
  | nil => exact fun h => h
  | cons e rest ih =>
      obtain ⟨pid, p⟩ := e
      intro acc h
      rw [patternScan]
      apply ih
      split
      · show updateUrgency acc.urgency p.action = .emergency
        rw [h]
        cases p.action <;> rfl
      · exact h

/-- The acute-MI pattern fires on `droppedEscalationInput`: all five keywords
are present (keyword ratio 1) and the score reaches the 0.4 threshold. -/
theorem acute_mi_fires_on_droppedEscalationInput :
    calculate_pattern_match droppedEscalationInput.symptoms
        (pyLowerStr droppedEscalationInput.chief_complaint)
        { patternName := "Acute Myocardial Infarction"
          keywords := ["chest pain", "crushing pain", "chest pressure", "left arm pain", "jaw pain"]
          associated := ["sweating", "nausea", "shortness of breath", "dizziness"]
          severity_triggers := ["severe", "crushing", "intense", "10/10", "worst ever"]
          action := .emergency_911
          message := "CALL 911 IMMEDIATELY - Possible heart attack"
          confidence_threshold := 0.4 } ≥ 0.4 := by
  have hkm : keywordMatches
      (allSymptomText droppedEscalationInput.symptoms
        (pyLowerStr droppedEscalationInput.chief_complaint))
      { patternName := "Acute Myocardial Infarction"
        keywords := ["chest pain", "crushing pain", "chest pressure", "left arm pain", "jaw pain"]
        associated := ["sweating", "nausea", "shortness of breath", "dizziness"]
        severity_triggers := ["severe", "crushing", "intense", "10/10", "worst ever"]
        action := .emergency_911
        message := "CALL 911 IMMEDIATELY - Possible heart attack"
        confidence_threshold := 0.4 } = 5 := by decide
  have hst : severityTriggerMatches
      (allSymptomText droppedEscalationInput.symptoms
        (pyLowerStr droppedEscalationInput.chief_complaint))
      { patternName := "Acute Myocardial Infarction"
        keywords := ["chest pain", "crushing pain", "chest pressure", "left arm pain", "jaw pain"]
        associated := ["sweating", "nausea", "shortness of breath", "dizziness"]
        severity_triggers := ["severe", "crushing", "intense", "10/10", "worst ever"]
        action := .emergency_911
        message := "CALL 911 IMMEDIATELY - Possible heart attack"
        confidence_threshold := 0.4 } = 1 := by decide
  have ham : associatedMatches
      (allSymptomText droppedEscalationInput.symptoms
        (pyLowerStr droppedEscalationInput.chief_complaint))
      { patternName := "Acute Myocardial Infarction"
        keywords := ["chest pain", "crushing pain", "chest pressure", "left arm pain", "jaw pain"]
        associated := ["sweating", "nausea", "shortness of breath", "dizziness"]
        severity_triggers := ["severe", "crushing", "intense", "10/10", "worst ever"]
        action := .emergency_911
        message := "CALL 911 IMMEDIATELY - Possible heart attack"
        confidence_threshold := 0.4 } = 0 := by decide
  simp only [calculate_pattern_match, keywordScore, hkm, hst, ham]
  norm_num

/-- The rule-based matcher finds nothing for the symptom list ["zzz"] over
the full knowledge base. -/
theorem rule_matching_empty_on_zzz :
    rule_based_matching medical_knowledge_base
      (droppedEscalationInput.symptoms.map Symptom.name) = [] := by
  show rule_based_matching medical_knowledge_base ["zzz"] = []
  unfold rule_based_matching
  have hall : ∀ e ∈ medical_knowledge_base, exactMatches ["zzz"] e.2.symptoms = [] := by
    decide
  have hnone : ∀ e ∈ medical_knowledge_base, ruleMatchOf ["zzz"] e = none := by
    intro e he
    unfold ruleMatchOf
    simp only [hall e he, List.length_nil, Nat.cast_zero, zero_div]
    have hz : ¬ ((if e.2.symptoms.isEmpty = true then (0 : ℚ) else 0) > 0) := by
      split <;> norm_num
    rw [if_neg hz]
  rw [List.filterMap_eq_nil_iff.mpr hnone]
  rfl

/-- C1 (failing-input evaluation): on `droppedEscalationInput` the
EmergencyDetector's tier is EMERGENCY, yet the final urgency produced by
`process_symptoms` is LOW — the coordinator takes the TreatmentSelector's
tier alone, so the final urgency is strictly lower than the maximum of the
two independently computed tiers. -/
theorem final_urgency_drops_emergency_tier :
    (detect_emergency droppedEscalationInput).urgency_level =
      UrgencyLevel.emergency ∧
    process_symptoms_final_urgency droppedEscalationInput = UrgencyLevel.low ∧
    UrgencyLevel.maxTier
        (detect_emergency droppedEscalationInput).urgency_level
        (process_symptoms_final_urgency droppedEscalationInput) =
      UrgencyLevel.emergency ∧
    process_symptoms_final_urgency droppedEscalationInput ≠
      UrgencyLevel.maxTier
        (detect_emergency droppedEscalationInput).urgency_level
        (process_symptoms_final_urgency droppedEscalationInput) := by
  have hscan : (patternScan droppedEscalationInput.symptoms
      (pyLowerStr droppedEscalationInput.chief_complaint)
      emergency_patterns ⟨0, [], .low⟩).urgency = .emergency := by
    simp only [emergency_patterns]
    rw [patternScan]
    rw [if_pos acute_mi_fires_on_droppedEscalationInput]
    exact patternScan_emergency_absorbing rfl
  have hdet : (detect_emergency droppedEscalationInput).urgency_level =
      UrgencyLevel.emergency := by
    unfold detect_emergency
    by_cases hesc : check_severity_escalation droppedEscalationInput.symptoms <;>
      simp [hesc, hscan]
  have hdiff : conditionMatcherDifferential medical_knowledge_base []
      (droppedEscalationInput.symptoms.map Symptom.name)
      droppedEscalationInput.patient_info = [] := by
    unfold conditionMatcherDifferential
    rw [rule_matching_empty_on_zzz]
    rfl
  have hfin : process_symptoms_final_urgency droppedEscalationInput =
      UrgencyLevel.low := by
    unfold process_symptoms_final_urgency
    rw [hdiff]
    rfl
  refine ⟨hdet, hfin, ?_, ?_⟩
  · rw [hdet, hfin]
    rfl
  · rw [hdet, hfin]
    decide

end HealthChecker
